import Mathlib

/-!
Verification of the exported C-linkage layer of zbessel-rs (`src/zbessel.cc`)
against its natural-language specification.

The file that is actually present in the repository is the 56-line wrapper
`src/zbessel.cc`: seven `extern "C"` entry points, each a single forwarding
call into the corresponding `zbessel::` core routine declared in
`zbessel.hh`.  The numerical core itself is not part of the visible source,
so properties of the core are modelled from the specification text (each
such definition carries a doc comment starting `Modelled from the spec:`).

Embedding choices:
  * a C `double` is carried opaquely by the wrapper (it never computes with
    one); the spec-modelled validation only compares orders with zero, so
    doubles are embedded as rationals;
  * a C pointer is an optional address (`none` is the null pointer); the
    wrapper only forwards pointers, never dereferences them;
  * the `zbessel::` core is a structure of functions, parametric in the
    result type, so that the same transliterated wrapper can be run
    against an arbitrary core, a call-recording core, or a core threaded
    through an explicit global state.
-/

/-- A C `double` as it appears at the wrapper boundary.  The wrapper never
performs arithmetic on it; the spec-modelled validation only needs an order
on it, so it is embedded as a rational number. -/
abbrev Double := ℚ

/-- A C pointer: an optional address.  `none` is the null pointer. -/
abbrev Ptr := Option Nat

/-- A complex value: ordered pair (real, imaginary), as in spec §3. -/
abbrev Cplx := Double × Double

/-! ## The C signatures of the seven exported entry points

Transliterated parameter lists of `src/zbessel.cc` lines 15–54, in source
order, used to settle the interface-shape claims. -/

/-- The C types occurring in the exported signatures. -/
inductive CType where
  | double
  | int
  | ptrDouble
  | ptrInt
deriving DecidableEq

/-- One formal parameter of an exported entry point: its name and C type. -/
structure Param where
  name : String
  type : CType
deriving DecidableEq

/-- Parameter list of `zbesh(double zr, double zi, double fnu, int kode,
int m, int n, double *cyr, double *cyi, int *nz)` (src/zbessel.cc:15-16). -/
def zbesh_params : List Param :=
  [⟨"zr", .double⟩, ⟨"zi", .double⟩, ⟨"fnu", .double⟩, ⟨"kode", .int⟩,
   ⟨"m", .int⟩, ⟨"n", .int⟩, ⟨"cyr", .ptrDouble⟩, ⟨"cyi", .ptrDouble⟩,
   ⟨"nz", .ptrInt⟩]

/-- Parameter list of `zbesi(double zr, double zi, double fnu, int kode,
int n, double *cyr, double *cyi, int *nz)` (src/zbessel.cc:21-22). -/
def zbesi_params : List Param :=
  [⟨"zr", .double⟩, ⟨"zi", .double⟩, ⟨"fnu", .double⟩, ⟨"kode", .int⟩,
   ⟨"n", .int⟩, ⟨"cyr", .ptrDouble⟩, ⟨"cyi", .ptrDouble⟩, ⟨"nz", .ptrInt⟩]

/-- Parameter list of `zbesj` (src/zbessel.cc:27-28); same shape as
`zbesi`. -/
def zbesj_params : List Param :=
  [⟨"zr", .double⟩, ⟨"zi", .double⟩, ⟨"fnu", .double⟩, ⟨"kode", .int⟩,
   ⟨"n", .int⟩, ⟨"cyr", .ptrDouble⟩, ⟨"cyi", .ptrDouble⟩, ⟨"nz", .ptrInt⟩]

/-- Parameter list of `zbesk` (src/zbessel.cc:33-34); same shape as
`zbesi`. -/
def zbesk_params : List Param :=
  [⟨"zr", .double⟩, ⟨"zi", .double⟩, ⟨"fnu", .double⟩, ⟨"kode", .int⟩,
   ⟨"n", .int⟩, ⟨"cyr", .ptrDouble⟩, ⟨"cyi", .ptrDouble⟩, ⟨"nz", .ptrInt⟩]

/-- Parameter list of `zbesy(double zr, double zi, double fnu, int kode,
int n, double *cyr, double *cyi, int *nz, double *cwrkr, double *cwrki)`
(src/zbessel.cc:40-41). -/
def zbesy_params : List Param :=
  [⟨"zr", .double⟩, ⟨"zi", .double⟩, ⟨"fnu", .double⟩, ⟨"kode", .int⟩,
   ⟨"n", .int⟩, ⟨"cyr", .ptrDouble⟩, ⟨"cyi", .ptrDouble⟩, ⟨"nz", .ptrInt⟩,
   ⟨"cwrkr", .ptrDouble⟩, ⟨"cwrki", .ptrDouble⟩]

/-- Parameter list of `zairy(double zr, double zi, int id, int kode,
double *air, double *aii, int *nz)` (src/zbessel.cc:46-47). -/
def zairy_params : List Param :=
  [⟨"zr", .double⟩, ⟨"zi", .double⟩, ⟨"id", .int⟩, ⟨"kode", .int⟩,
   ⟨"air", .ptrDouble⟩, ⟨"aii", .ptrDouble⟩, ⟨"nz", .ptrInt⟩]

/-- Parameter list of `zbiry(double zr, double zi, int id, int kode,
double *bir, double *bii)` (src/zbessel.cc:52). -/
def zbiry_params : List Param :=
  [⟨"zr", .double⟩, ⟨"zi", .double⟩, ⟨"id", .int⟩, ⟨"kode", .int⟩,
   ⟨"bir", .ptrDouble⟩, ⟨"bii", .ptrDouble⟩]

/-- `true` iff a parameter list contains one of the `zbesy` scratch-buffer
parameters `cwrkr` / `cwrki`. -/
def hasScratch (ps : List Param) : Bool :=
  ps.any fun p => p.name == "cwrkr" || p.name == "cwrki"

/-- `true` iff a parameter list contains the Hankel kind selector `m`. -/
def hasKindM (ps : List Param) : Bool :=
  ps.any fun p => p.name == "m"

/-! ## The wrapper as a forwarding layer over an abstract core

`ZbesselCore ρ` is the interface of the `zbessel::` namespace as declared
in `zbessel.hh` and used by `src/zbessel.cc`, parametric in the result type
`ρ` so the forwarding layer can be exercised against instrumented cores. -/

/-- The `zbessel::` core routines the wrapper links against, one field per
routine, each taking exactly the argument list the wrapper passes. -/
structure ZbesselCore (ρ : Type) where
  zbesh : Double → Double → Double → Int → Int → Int → Ptr → Ptr → Ptr → ρ
  zbesi : Double → Double → Double → Int → Int → Ptr → Ptr → Ptr → ρ
  zbesj : Double → Double → Double → Int → Int → Ptr → Ptr → Ptr → ρ
  zbesk : Double → Double → Double → Int → Int → Ptr → Ptr → Ptr → ρ
  zbesy : Double → Double → Double → Int → Int → Ptr → Ptr → Ptr → Ptr → Ptr → ρ
  zairy : Double → Double → Int → Int → Ptr → Ptr → Ptr → ρ
  zbiry : Double → Double → Int → Int → Ptr → Ptr → ρ

/-- Exported `zbesh` (src/zbessel.cc:15-19):
`return zbessel::zbesh(zr, zi, fnu, kode, m, n, cyr, cyi, nz);`. -/
def zbesh (core : ZbesselCore ρ) (zr zi fnu : Double) (kode m n : Int)
    (cyr cyi nz : Ptr) : ρ :=
  core.zbesh zr zi fnu kode m n cyr cyi nz

/-- Exported `zbesi` (src/zbessel.cc:21-25):
`return zbessel::zbesi(zr, zi, fnu, kode, n, cyr, cyi, nz);`. -/
def zbesi (core : ZbesselCore ρ) (zr zi fnu : Double) (kode n : Int)
    (cyr cyi nz : Ptr) : ρ :=
  core.zbesi zr zi fnu kode n cyr cyi nz

/-- Exported `zbesj` (src/zbessel.cc:27-31):
`return zbessel::zbesj(zr, zi, fnu, kode, n, cyr, cyi, nz);`. -/
def zbesj (core : ZbesselCore ρ) (zr zi fnu : Double) (kode n : Int)
    (cyr cyi nz : Ptr) : ρ :=
  core.zbesj zr zi fnu kode n cyr cyi nz

/-- Exported `zbesk` (src/zbessel.cc:33-37):
`return zbessel::zbesk(zr, zi, fnu, kode, n, cyr, cyi, nz);`. -/
def zbesk (core : ZbesselCore ρ) (zr zi fnu : Double) (kode n : Int)
    (cyr cyi nz : Ptr) : ρ :=
  core.zbesk zr zi fnu kode n cyr cyi nz

/-- Exported `zbesy` (src/zbessel.cc:39-43):
`return zbessel::zbesy(zr, zi, fnu, kode, n, cyr, cyi, nz, cwrkr, cwrki);`. -/
def zbesy (core : ZbesselCore ρ) (zr zi fnu : Double) (kode n : Int)
    (cyr cyi nz cwrkr cwrki : Ptr) : ρ :=
  core.zbesy zr zi fnu kode n cyr cyi nz cwrkr cwrki

/-- Exported `zairy` (src/zbessel.cc:45-49):
`return zbessel::zairy(zr, zi, id, kode, air, aii, nz);`. -/
def zairy (core : ZbesselCore ρ) (zr zi : Double) (id kode : Int)
    (air aii nz : Ptr) : ρ :=
  core.zairy zr zi id kode air aii nz

/-- Exported `zbiry` (src/zbessel.cc:51-54):
`return zbessel::zbiry(zr, zi, id, kode, bir, bii);`. -/
def zbiry (core : ZbesselCore ρ) (zr zi : Double) (id kode : Int)
    (bir bii : Ptr) : ρ :=
  core.zbiry zr zi id kode bir bii

/-! ## Instrumented cores

To settle the call-discipline claims, the parametric wrapper is run against
a core that records the calls it receives, and against a core threaded
through an explicit global state. -/

/-- A record of one call received by a `zbessel::` core routine, carrying
every argument as received. -/
inductive CallRec where
  | besh (zr zi fnu : Double) (kode m n : Int) (cyr cyi nz : Ptr)
  | besi (zr zi fnu : Double) (kode n : Int) (cyr cyi nz : Ptr)
  | besj (zr zi fnu : Double) (kode n : Int) (cyr cyi nz : Ptr)
  | besk (zr zi fnu : Double) (kode n : Int) (cyr cyi nz : Ptr)
  | besy (zr zi fnu : Double) (kode n : Int) (cyr cyi nz cwrkr cwrki : Ptr)
  | airy (zr zi : Double) (id kode : Int) (air aii nz : Ptr)
  | biry (zr zi : Double) (id kode : Int) (bir bii : Ptr)
deriving DecidableEq

/-- The call-recording core: each routine returns the list of calls it
received during the invocation, namely the one call with its arguments. -/
def traceCore : ZbesselCore (List CallRec) where
  zbesh := fun zr zi fnu kode m n cyr cyi nz =>
    [CallRec.besh zr zi fnu kode m n cyr cyi nz]
  zbesi := fun zr zi fnu kode n cyr cyi nz =>
    [CallRec.besi zr zi fnu kode n cyr cyi nz]
  zbesj := fun zr zi fnu kode n cyr cyi nz =>
    [CallRec.besj zr zi fnu kode n cyr cyi nz]
  zbesk := fun zr zi fnu kode n cyr cyi nz =>
    [CallRec.besk zr zi fnu kode n cyr cyi nz]
  zbesy := fun zr zi fnu kode n cyr cyi nz cwrkr cwrki =>
    [CallRec.besy zr zi fnu kode n cyr cyi nz cwrkr cwrki]
  zairy := fun zr zi id kode air aii nz =>
    [CallRec.airy zr zi id kode air aii nz]
  zbiry := fun zr zi id kode bir bii =>
    [CallRec.biry zr zi id kode bir bii]

/-- Result of a call made against a global mutable state `σ`: the call sees
the state and returns an integer status together with the state it leaves
behind. -/
def StResult (σ : Type) := σ → Int × σ

/-- Run the same call twice in sequence from state `g`, the second call
starting from the state the first one left: returns both statuses and the
final state. -/
def seqTwo (r : StResult σ) (g : σ) : (Int × Int) × σ :=
  let p := r g
  let q := r p.2
  ((p.1, q.1), q.2)

/-- An inert stateful core: every routine returns status `0` and leaves the
global state untouched.  Used to exhibit concrete runs of the wrapper. -/
def pureCore (σ : Type) : ZbesselCore (StResult σ) where
  zbesh := fun _ _ _ _ _ _ _ _ _ g => (0, g)
  zbesi := fun _ _ _ _ _ _ _ _ g => (0, g)
  zbesj := fun _ _ _ _ _ _ _ _ g => (0, g)
  zbesk := fun _ _ _ _ _ _ _ _ g => (0, g)
  zbesy := fun _ _ _ _ _ _ _ _ _ _ g => (0, g)
  zairy := fun _ _ _ _ _ _ _ g => (0, g)
  zbiry := fun _ _ _ _ _ _ g => (0, g)

/-! ## Core behaviour modelled from the specification

The `zbessel::` routines themselves are not under the visible source; the
claims about their input validation and underflow accounting are settled
against models built from the specification's words (§3, §4.4 step 1 and
step 6, §6, §7).  The numerical evaluation itself is abstracted as a
parameter: the claims under proof concern only validation order and the
`nz` assembly, not the values produced. -/

/-- Modelled from the spec: the common driver input validation of the
run-producing routines — "Validate inputs (`fnu ≥ 0`, `n ≥ 1`, `kode` in
allowed enumeration)" (§4.4 step 1); the scaling mode is a two-value
enumeration (§3), carried as 1 = unscaled, 2 = exponentially scaled. -/
def validCommon (fnu : Double) (kode n : Int) : Bool :=
  decide (0 ≤ fnu) && decide (1 ≤ n) && (kode == 1 || kode == 2)

/-- Modelled from the spec: `zbesh` validation additionally requires the
Hankel kind selector `m ∈ {1,2}` (§3, §6). -/
def validBesh (fnu : Double) (kode m n : Int) : Bool :=
  validCommon fnu kode n && (m == 1 || m == 2)

/-- Modelled from the spec: Airy-call validation — `id ∈ {0,1}` selects
function vs. first derivative (§3), `kode` in the two-value scaling
enumeration. -/
def validAiry (id kode : Int) : Bool :=
  (id == 0 || id == 1) && (kode == 1 || kode == 2)

/-- Modelled from the spec: the shape of every driver — "invalid input is a
fatal, immediately-reported error (no partial computation)" (§4.4 step 1)
with a negative status for input error (§6); on valid input the abstract
evaluation `eval` runs and its results are published. -/
def checkedDriver (valid : Bool) (eval : Unit → Int × α) : Int × Option α :=
  if valid then
    let r := eval ()
    (r.1, some r.2)
  else (-1, none)

/-- Modelled from the spec: the `zbessel::zbesh` driver, validation first,
numerical evaluation abstracted as `eval`. -/
def driverBesh (eval : Unit → Int × (Nat × List Cplx))
    (fnu : Double) (kode m n : Int) : Int × Option (Nat × List Cplx) :=
  checkedDriver (validBesh fnu kode m n) eval

/-- Modelled from the spec: a run-producing driver without a kind selector
(`zbesi`, `zbesj`, `zbesk`, `zbesy`), validation first, numerical
evaluation abstracted as `eval`. -/
def driverBesCommon (eval : Unit → Int × (Nat × List Cplx))
    (fnu : Double) (kode n : Int) : Int × Option (Nat × List Cplx) :=
  checkedDriver (validCommon fnu kode n) eval

/-- Modelled from the spec: a single-value Airy driver (`zairy`, `zbiry`),
validation first, numerical evaluation abstracted as `eval`. -/
def driverAiry (eval : Unit → Int × Cplx)
    (id kode : Int) : Int × Option Cplx :=
  checkedDriver (validAiry id kode) eval

/-- Modelled from the spec: "number of leading entries in the order run
whose true (unscaled) value underflows to zero in double precision" (§3);
the double-precision underflow test on a true value is abstracted as the
predicate `uf`. -/
def nzCount (uf : Cplx → Bool) : List Cplx → Nat
  | [] => 0
  | v :: vs => if uf v then nzCount uf vs + 1 else 0

/-- Modelled from the spec: the published order run — the leading entries
whose true value underflows "are set to (0,0)" (§3), the remaining entries
are the (possibly scaled) true values. -/
def publishRun (uf : Cplx → Bool) : List Cplx → List Cplx
  | [] => []
  | v :: vs => if uf v then ((0 : Double), (0 : Double)) :: publishRun uf vs
               else v :: vs

/-- Helper: a stateful call that leaves the global state unchanged returns
the same status on a second invocation and leaves the overall state where
it started. -/
theorem seqTwo_of_preserving (r : StResult σ) (g : σ) (h : (r g).2 = g) :
    (seqTwo r g).1.1 = (seqTwo r g).1.2 ∧ (seqTwo r g).2 = g := by
  simp [seqTwo, h]

/-- C1: each of the seven exported entry points is extensionally equal to
the corresponding `zbessel::` core routine — it forwards every argument
unchanged and in the same order, performs no computation of its own, and
returns exactly what the core routine returns, for every core it could be
linked against. -/
theorem wrapper_forwards_to_core :
    (∀ (ρ : Type) (core : ZbesselCore ρ) (zr zi fnu : Double)
        (kode m n : Int) (cyr cyi nz : Ptr),
       zbesh core zr zi fnu kode m n cyr cyi nz
         = core.zbesh zr zi fnu kode m n cyr cyi nz) ∧
    (∀ (ρ : Type) (core : ZbesselCore ρ) (zr zi fnu : Double)
        (kode n : Int) (cyr cyi nz : Ptr),
       zbesi core zr zi fnu kode n cyr cyi nz
         = core.zbesi zr zi fnu kode n cyr cyi nz) ∧
    (∀ (ρ : Type) (core : ZbesselCore ρ) (zr zi fnu : Double)
        (kode n : Int) (cyr cyi nz : Ptr),
       zbesj core zr zi fnu kode n cyr cyi nz
         = core.zbesj zr zi fnu kode n cyr cyi nz) ∧
    (∀ (ρ : Type) (core : ZbesselCore ρ) (zr zi fnu : Double)
        (kode n : Int) (cyr cyi nz : Ptr),
       zbesk core zr zi fnu kode n cyr cyi nz
         = core.zbesk zr zi fnu kode n cyr cyi nz) ∧
    (∀ (ρ : Type) (core : ZbesselCore ρ) (zr zi fnu : Double)
        (kode n : Int) (cyr cyi nz cwrkr cwrki : Ptr),
       zbesy core zr zi fnu kode n cyr cyi nz cwrkr cwrki
         = core.zbesy zr zi fnu kode n cyr cyi nz cwrkr cwrki) ∧
    (∀ (ρ : Type) (core : ZbesselCore ρ) (zr zi : Double)
        (id kode : Int) (air aii nz : Ptr),
       zairy core zr zi id kode air aii nz
         = core.zairy zr zi id kode air aii nz) ∧
    (∀ (ρ : Type) (core : ZbesselCore ρ) (zr zi : Double)
        (id kode : Int) (bir bii : Ptr),
       zbiry core zr zi id kode bir bii
         = core.zbiry zr zi id kode bir bii) := by
  refine ⟨?_, ?_, ?_, ?_, ?_, ?_, ?_⟩ <;> intros <;> rfl

/-- C2 (counterexample): the exported Airy (first kind) entry point does
have an underflow-count output parameter `nz` — its parameter list is not
free of a parameter named `nz`, contrary to the claim. -/
theorem zairy_nz_param_exists : ¬ (∀ p ∈ zairy_params, p.name ≠ "nz") := by
  decide

/-- C2 (amended): the Airy (first kind) entry point takes inputs `z`
(`zr`, `zi`), `id`, and `kode`, and produces a single (re,im) value through
the two double outputs `air`, `aii`; it produces no order run (no count
parameter `n` and no run arrays `cyr`/`cyi`), but it does carry an integer
underflow-indicator output `nz`. -/
theorem zairy_signature_shape :
    zairy_params.map Param.name = ["zr", "zi", "id", "kode", "air", "aii", "nz"] ∧
    zairy_params.map Param.type
      = [CType.double, CType.double, CType.int, CType.int,
         CType.ptrDouble, CType.ptrDouble, CType.ptrInt] ∧
    (zairy_params.filter (fun p => p.type == CType.ptrDouble)).length = 2 ∧
    (∀ p ∈ zairy_params, p.name ≠ "n" ∧ p.name ≠ "cyr" ∧ p.name ≠ "cyi") ∧
    zairy_params.any (fun p => p.name == "nz" && p.type == CType.ptrInt) = true := by
  decide

/-- C6: the exported Bessel Y entry point takes the common inputs
(`zr`, `zi`, `fnu`, `kode`, `n`) and outputs (`cyr`, `cyi`, `nz`) plus the
two caller-provided scratch buffers `cwrkr`, `cwrki`, and it is the only
exported entry point whose signature carries scratch buffers. -/
theorem zbesy_scratch_buffers :
    zbesy_params.map Param.name
      = ["zr", "zi", "fnu", "kode", "n", "cyr", "cyi", "nz", "cwrkr", "cwrki"] ∧
    zbesy_params
      = zbesi_params ++ [⟨"cwrkr", CType.ptrDouble⟩, ⟨"cwrki", CType.ptrDouble⟩] ∧
    hasScratch zbesy_params = true ∧
    hasScratch zbesh_params = false ∧
    hasScratch zbesi_params = false ∧
    hasScratch zbesj_params = false ∧
    hasScratch zbesk_params = false ∧
    hasScratch zairy_params = false ∧
    hasScratch zbiry_params = false := by
  decide

/-- C8: the exported Airy second-kind entry point `zbiry` takes inputs
`zr`, `zi`, `id`, `kode` and produces its single (re,im) value through the
two double outputs `bir`, `bii` with an integer status; its signature has
no order-run parameters and no `nz` output. -/
theorem zbiry_signature_shape :
    zbiry_params.map Param.name = ["zr", "zi", "id", "kode", "bir", "bii"] ∧
    zbiry_params.map Param.type
      = [CType.double, CType.double, CType.int, CType.int,
         CType.ptrDouble, CType.ptrDouble] ∧
    (∀ p ∈ zbiry_params, p.name ≠ "nz" ∧ p.name ≠ "n" ∧ p.type ≠ CType.ptrInt) := by
  decide

/-- C7: the exported Hankel entry point `zbesh` takes `zr`, `zi`, `fnu`,
`kode`, the kind selector `m`, and `n`, producing the run arrays `cyr`,
`cyi` and the underflow count `nz`; it is the only run-producing entry
point whose signature carries `m`, and the spec-modelled validation admits
exactly `m ∈ {1,2}`. -/
theorem zbesh_kind_selector :
    zbesh_params.map Param.name
      = ["zr", "zi", "fnu", "kode", "m", "n", "cyr", "cyi", "nz"] ∧
    hasKindM zbesh_params = true ∧
    hasKindM zbesi_params = false ∧
    hasKindM zbesj_params = false ∧
    hasKindM zbesk_params = false ∧
    hasKindM zbesy_params = false ∧
    validBesh 0 1 1 1 = true ∧
    validBesh 0 1 2 1 = true ∧
    validBesh 0 1 0 1 = false ∧
    validBesh 0 1 3 1 = false := by
  decide

/-- Modelled from the spec: the (nz, run) pair a run-producing driver
publishes for the true values of the requested order run (§3, §4.4 step 6). -/
def assembleRun (uf : Cplx → Bool) (vals : List Cplx) : Nat × List Cplx :=
  (nzCount uf vals, publishRun uf vals)

/-- C3: for any run of `n` true values, the published underflow count `nz`
satisfies `0 ≤ nz ≤ n`, the published run still has `n` entries, and every
entry at an index before `nz` is set to (0,0). -/
theorem assembleRun_nz_invariant (uf : Cplx → Bool) (vals : List Cplx) :
    (assembleRun uf vals).1 ≤ vals.length ∧
    (assembleRun uf vals).2.length = vals.length ∧
    (∀ i, i < (assembleRun uf vals).1 →
      (assembleRun uf vals).2[i]? = some ((0 : Double), (0 : Double))) := by
  induction vals with
  | nil =>
      refine ⟨Nat.le_refl 0, rfl, ?_⟩
      intro i h
      simp [assembleRun, nzCount] at h
  | cons v vs ih =>
      rcases ih with ⟨h1, h2, h3⟩
      cases hv : uf v with
      | true =>
          refine ⟨?_, ?_, ?_⟩
          · simpa [assembleRun, nzCount, hv] using Nat.succ_le_succ h1
          · simpa [assembleRun, publishRun, hv] using h2
          · intro i hi
            cases i with
            | zero => simp [assembleRun, publishRun, hv]
            | succ j =>
                have hj : j < (assembleRun uf vs).1 := by
                  simpa [assembleRun, nzCount, hv, Nat.succ_lt_succ_iff] using hi
                simpa [assembleRun, publishRun, hv] using h3 j hj
      | false =>
          refine ⟨?_, ?_, ?_⟩
          · simp [assembleRun, nzCount, hv]
          · simp [assembleRun, publishRun, hv]
          · intro i hi
            simp [assembleRun, nzCount, hv] at hi

/-- A concrete underflow test used to exhibit runs of the spec-modelled
assembly: an entry underflows iff it is already (0,0). -/
def ufZero : Cplx → Bool := fun c => decide (c.1 = 0 ∧ c.2 = 0)

/-- Witness for C3 at a concrete two-entry run whose first entry
underflows: the published entry before index `nz` is (0,0). -/
theorem assembleRun_nz_invariant_witness :
    (assembleRun ufZero
        [((0 : Double), (0 : Double)), ((5 : Double), (0 : Double))]).2[0]?
      = some ((0 : Double), (0 : Double)) :=
  (assembleRun_nz_invariant ufZero
      [((0 : Double), (0 : Double)), ((5 : Double), (0 : Double))]).2.2 0
    (by decide)

/-- The common validation succeeds exactly on `fnu ≥ 0`, `n ≥ 1`, and a
scaling mode in the two-value enumeration. -/
theorem validCommon_eq_true_iff (fnu : Double) (kode n : Int) :
    validCommon fnu kode n = true ↔
      0 ≤ fnu ∧ 1 ≤ n ∧ (kode = 1 ∨ kode = 2) := by
  simp [validCommon, Bool.and_eq_true, Bool.or_eq_true, decide_eq_true_eq,
    beq_iff_eq, and_assoc]

/-- The Hankel validation additionally demands `m ∈ {1,2}`. -/
theorem validBesh_eq_true_iff (fnu : Double) (kode m n : Int) :
    validBesh fnu kode m n = true ↔
      (0 ≤ fnu ∧ 1 ≤ n ∧ (kode = 1 ∨ kode = 2)) ∧ (m = 1 ∨ m = 2) := by
  simp [validBesh, Bool.and_eq_true, Bool.or_eq_true, beq_iff_eq,
    validCommon_eq_true_iff]

/-- The Airy validation succeeds exactly on `id ∈ {0,1}` and a scaling mode
in the two-value enumeration. -/
theorem validAiry_eq_true_iff (id kode : Int) :
    validAiry id kode = true ↔ (id = 0 ∨ id = 1) ∧ (kode = 1 ∨ kode = 2) := by
  simp [validAiry, Bool.and_eq_true, Bool.or_eq_true, beq_iff_eq]

/-- An input violating any of the common validity conditions fails the
common validation. -/
theorem validCommon_false_of (fnu : Double) (kode n : Int)
    (h : fnu < 0 ∨ n < 1 ∨ (kode ≠ 1 ∧ kode ≠ 2)) :
    validCommon fnu kode n = false := by
  cases hb : validCommon fnu kode n with
  | false => rfl
  | true =>
      rw [validCommon_eq_true_iff] at hb
      rcases hb with ⟨hf, hn, hk⟩
      rcases h with h | h | ⟨h1, h2⟩
      · exact absurd hf (not_le.mpr h)
      · omega
      · rcases hk with hk | hk
        · exact absurd hk h1
        · exact absurd hk h2

/-- An input violating any of the Hankel validity conditions fails the
Hankel validation. -/
theorem validBesh_false_of (fnu : Double) (kode m n : Int)
    (h : fnu < 0 ∨ n < 1 ∨ (kode ≠ 1 ∧ kode ≠ 2) ∨ (m ≠ 1 ∧ m ≠ 2)) :
    validBesh fnu kode m n = false := by
  cases hb : validBesh fnu kode m n with
  | false => rfl
  | true =>
      rw [validBesh_eq_true_iff] at hb
      rcases hb with ⟨⟨hf, hn, hk⟩, hm⟩
      rcases h with h | h | ⟨h1, h2⟩ | ⟨h1, h2⟩
      · exact absurd hf (not_le.mpr h)
      · omega
      · rcases hk with hk | hk
        · exact absurd hk h1
        · exact absurd hk h2
      · rcases hm with hm | hm
        · exact absurd hm h1
        · exact absurd hm h2

/-- An input violating any of the Airy validity conditions fails the Airy
validation. -/
theorem validAiry_false_of (id kode : Int)
    (h : (id ≠ 0 ∧ id ≠ 1) ∨ (kode ≠ 1 ∧ kode ≠ 2)) :
    validAiry id kode = false := by
  cases hb : validAiry id kode with
  | false => rfl
  | true =>
      rw [validAiry_eq_true_iff] at hb
      rcases hb with ⟨hi, hk⟩
      rcases h with ⟨h1, h2⟩ | ⟨h1, h2⟩
      · rcases hi with hi | hi
        · exact absurd hi h1
        · exact absurd hi h2
      · rcases hk with hk | hk
        · exact absurd hk h1
        · exact absurd hk h2

/-- C4: a call on an input the spec classes as invalid — `fnu < 0`,
`n < 1`, or `kode`/`id`/`m` outside its allowed enumeration — returns the
negative input-error status with no outputs published, for each shape of
spec-modelled driver and for every abstract evaluation. -/
theorem invalid_input_rejected :
    (∀ (eval : Unit → Int × (Nat × List Cplx)) (fnu : Double) (kode m n : Int),
       fnu < 0 ∨ n < 1 ∨ (kode ≠ 1 ∧ kode ≠ 2) ∨ (m ≠ 1 ∧ m ≠ 2) →
       driverBesh eval fnu kode m n = (-1, none) ∧
       (driverBesh eval fnu kode m n).1 < 0) ∧
    (∀ (eval : Unit → Int × (Nat × List Cplx)) (fnu : Double) (kode n : Int),
       fnu < 0 ∨ n < 1 ∨ (kode ≠ 1 ∧ kode ≠ 2) →
       driverBesCommon eval fnu kode n = (-1, none) ∧
       (driverBesCommon eval fnu kode n).1 < 0) ∧
    (∀ (eval : Unit → Int × Cplx) (id kode : Int),
       (id ≠ 0 ∧ id ≠ 1) ∨ (kode ≠ 1 ∧ kode ≠ 2) →
       driverAiry eval id kode = (-1, none) ∧
       (driverAiry eval id kode).1 < 0) := by
  refine ⟨?_, ?_, ?_⟩
  · intro eval fnu kode m n h
    have hv := validBesh_false_of fnu kode m n h
    constructor <;> simp [driverBesh, checkedDriver, hv]
  · intro eval fnu kode n h
    have hv := validCommon_false_of fnu kode n h
    constructor <;> simp [driverBesCommon, checkedDriver, hv]
  · intro eval id kode h
    have hv := validAiry_false_of id kode h
    constructor <;> simp [driverAiry, checkedDriver, hv]

/-- A concrete abstract evaluation for run-producing drivers, used to
exhibit concrete driver calls. -/
def evalRunEx : Unit → Int × (Nat × List Cplx) := fun _ => (0, (0, []))

/-- Witness for C4: the Hankel-shaped driver at the invalid order
`fnu = -1` returns status `-1` with nothing computed. -/
theorem invalid_input_rejected_witness :
    driverBesh evalRunEx (-1) 1 1 1 = (-1, none) ∧
    (driverBesh evalRunEx (-1) 1 1 1).1 < 0 :=
  invalid_input_rejected.1 evalRunEx (-1) 1 1 1 (Or.inl (by norm_num))

/-- C5: against any core whose routine leaves the global state unchanged
(the spec's stateless core, §5), two invocations of the same exported
entry point with identical inputs produce the identical status, and the
global state after the two calls is the state before them, for every entry
point.  The wrapper itself introduces no state of its own. -/
theorem wrapper_stateless_deterministic :
    (∀ (σ : Type) (core : ZbesselCore (StResult σ)) (zr zi fnu : Double)
        (kode m n : Int) (cyr cyi nz : Ptr) (g : σ),
       (core.zbesh zr zi fnu kode m n cyr cyi nz g).2 = g →
       (seqTwo (zbesh core zr zi fnu kode m n cyr cyi nz) g).1.1
         = (seqTwo (zbesh core zr zi fnu kode m n cyr cyi nz) g).1.2 ∧
       (seqTwo (zbesh core zr zi fnu kode m n cyr cyi nz) g).2 = g) ∧
    (∀ (σ : Type) (core : ZbesselCore (StResult σ)) (zr zi fnu : Double)
        (kode n : Int) (cyr cyi nz : Ptr) (g : σ),
       (core.zbesi zr zi fnu kode n cyr cyi nz g).2 = g →
       (seqTwo (zbesi core zr zi fnu kode n cyr cyi nz) g).1.1
         = (seqTwo (zbesi core zr zi fnu kode n cyr cyi nz) g).1.2 ∧
       (seqTwo (zbesi core zr zi fnu kode n cyr cyi nz) g).2 = g) ∧
    (∀ (σ : Type) (core : ZbesselCore (StResult σ)) (zr zi fnu : Double)
        (kode n : Int) (cyr cyi nz : Ptr) (g : σ),
       (core.zbesj zr zi fnu kode n cyr cyi nz g).2 = g →
       (seqTwo (zbesj core zr zi fnu kode n cyr cyi nz) g).1.1
         = (seqTwo (zbesj core zr zi fnu kode n cyr cyi nz) g).1.2 ∧
       (seqTwo (zbesj core zr zi fnu kode n cyr cyi nz) g).2 = g) ∧
    (∀ (σ : Type) (core : ZbesselCore (StResult σ)) (zr zi fnu : Double)
        (kode n : Int) (cyr cyi nz : Ptr) (g : σ),
       (core.zbesk zr zi fnu kode n cyr cyi nz g).2 = g →
       (seqTwo (zbesk core zr zi fnu kode n cyr cyi nz) g).1.1
         = (seqTwo (zbesk core zr zi fnu kode n cyr cyi nz) g).1.2 ∧
       (seqTwo (zbesk core zr zi fnu kode n cyr cyi nz) g).2 = g) ∧
    (∀ (σ : Type) (core : ZbesselCore (StResult σ)) (zr zi fnu : Double)
        (kode n : Int) (cyr cyi nz cwrkr cwrki : Ptr) (g : σ),
       (core.zbesy zr zi fnu kode n cyr cyi nz cwrkr cwrki g).2 = g →
       (seqTwo (zbesy core zr zi fnu kode n cyr cyi nz cwrkr cwrki) g).1.1
         = (seqTwo (zbesy core zr zi fnu kode n cyr cyi nz cwrkr cwrki) g).1.2 ∧
       (seqTwo (zbesy core zr zi fnu kode n cyr cyi nz cwrkr cwrki) g).2 = g) ∧
    (∀ (σ : Type) (core : ZbesselCore (StResult σ)) (zr zi : Double)
        (id kode : Int) (air aii nz : Ptr) (g : σ),
       (core.zairy zr zi id kode air aii nz g).2 = g →
       (seqTwo (zairy core zr zi id kode air aii nz) g).1.1
         = (seqTwo (zairy core zr zi id kode air aii nz) g).1.2 ∧
       (seqTwo (zairy core zr zi id kode air aii nz) g).2 = g) ∧
    (∀ (σ : Type) (core : ZbesselCore (StResult σ)) (zr zi : Double)
        (id kode : Int) (bir bii : Ptr) (g : σ),
       (core.zbiry zr zi id kode bir bii g).2 = g →
       (seqTwo (zbiry core zr zi id kode bir bii) g).1.1
         = (seqTwo (zbiry core zr zi id kode bir bii) g).1.2 ∧
       (seqTwo (zbiry core zr zi id kode bir bii) g).2 = g) := by
  refine ⟨?_, ?_, ?_, ?_, ?_, ?_, ?_⟩ <;>
    · intros
      exact seqTwo_of_preserving _ _ (by assumption)

/-- Witness for C5: two calls of exported `zbesh` against the inert
stateful core, at a concrete input and initial state `0`, return the same
status and leave the state at `0`. -/
theorem wrapper_stateless_deterministic_witness :
    (seqTwo (zbesh (pureCore Int) 0 0 0 1 1 1 none none none) 0).1.1
      = (seqTwo (zbesh (pureCore Int) 0 0 0 1 1 1 none none none) 0).1.2 ∧
    (seqTwo (zbesh (pureCore Int) 0 0 0 1 1 1 none none none) 0).2 = 0 :=
  wrapper_stateless_deterministic.1 Int (pureCore Int)
    0 0 0 1 1 1 none none none 0 rfl

/-- C9: each exported entry point invokes its core routine exactly once
and unconditionally — run against the call-recording core, the call trace
is the single record of that one call with the arguments unchanged — and,
in particular, inputs the spec classes as invalid are still forwarded to
the core rather than rejected at the exported boundary. -/
theorem core_called_exactly_once :
    (∀ (zr zi fnu : Double) (kode m n : Int) (cyr cyi nz : Ptr),
       zbesh traceCore zr zi fnu kode m n cyr cyi nz
         = [CallRec.besh zr zi fnu kode m n cyr cyi nz]) ∧
    (∀ (zr zi fnu : Double) (kode n : Int) (cyr cyi nz : Ptr),
       zbesi traceCore zr zi fnu kode n cyr cyi nz
         = [CallRec.besi zr zi fnu kode n cyr cyi nz]) ∧
    (∀ (zr zi fnu : Double) (kode n : Int) (cyr cyi nz : Ptr),
       zbesj traceCore zr zi fnu kode n cyr cyi nz
         = [CallRec.besj zr zi fnu kode n cyr cyi nz]) ∧
    (∀ (zr zi fnu : Double) (kode n : Int) (cyr cyi nz : Ptr),
       zbesk traceCore zr zi fnu kode n cyr cyi nz
         = [CallRec.besk zr zi fnu kode n cyr cyi nz]) ∧
    (∀ (zr zi fnu : Double) (kode n : Int) (cyr cyi nz cwrkr cwrki : Ptr),
       zbesy traceCore zr zi fnu kode n cyr cyi nz cwrkr cwrki
         = [CallRec.besy zr zi fnu kode n cyr cyi nz cwrkr cwrki]) ∧
    (∀ (zr zi : Double) (id kode : Int) (air aii nz : Ptr),
       zairy traceCore zr zi id kode air aii nz
         = [CallRec.airy zr zi id kode air aii nz]) ∧
    (∀ (zr zi : Double) (id kode : Int) (bir bii : Ptr),
       zbiry traceCore zr zi id kode bir bii
         = [CallRec.biry zr zi id kode bir bii]) ∧
    (∀ (zr zi fnu : Double) (kode m n : Int) (cyr cyi nz : Ptr),
       fnu < 0 ∨ n < 1 ∨ (kode ≠ 1 ∧ kode ≠ 2) ∨ (m ≠ 1 ∧ m ≠ 2) →
       zbesh traceCore zr zi fnu kode m n cyr cyi nz
         = [CallRec.besh zr zi fnu kode m n cyr cyi nz]) := by
  refine ⟨?_, ?_, ?_, ?_, ?_, ?_, ?_, ?_⟩ <;> intros <;> rfl

/-- Witness for C9: the invalid order `fnu = -1` with `kode = m = n = 0`
still reaches the core as one unmodified call. -/
theorem core_called_exactly_once_witness :
    zbesh traceCore 0 0 (-1) 0 0 0 none none none
      = [CallRec.besh 0 0 (-1) 0 0 0 none none none] :=
  core_called_exactly_once.2.2.2.2.2.2.2 0 0 (-1) 0 0 0 none none none
    (Or.inl (by norm_num))

/-- C10: the wrapper treats every pointer parameter as opaque — the null
pointer is forwarded to the core as-is with no null check, for every entry
point and every core — and the wrapper adds no memory effect of its own:
when the core routine leaves the global memory state unchanged, so does
the exported call. -/
theorem pointers_forwarded_opaque :
    (∀ (ρ : Type) (core : ZbesselCore ρ) (zr zi fnu : Double) (kode m n : Int),
       zbesh core zr zi fnu kode m n none none none
         = core.zbesh zr zi fnu kode m n none none none) ∧
    (∀ (ρ : Type) (core : ZbesselCore ρ) (zr zi fnu : Double) (kode n : Int),
       zbesi core zr zi fnu kode n none none none
         = core.zbesi zr zi fnu kode n none none none) ∧
    (∀ (ρ : Type) (core : ZbesselCore ρ) (zr zi fnu : Double) (kode n : Int),
       zbesj core zr zi fnu kode n none none none
         = core.zbesj zr zi fnu kode n none none none) ∧
    (∀ (ρ : Type) (core : ZbesselCore ρ) (zr zi fnu : Double) (kode n : Int),
       zbesk core zr zi fnu kode n none none none
         = core.zbesk zr zi fnu kode n none none none) ∧
    (∀ (ρ : Type) (core : ZbesselCore ρ) (zr zi fnu : Double) (kode n : Int),
       zbesy core zr zi fnu kode n none none none none none
         = core.zbesy zr zi fnu kode n none none none none none) ∧
    (∀ (ρ : Type) (core : ZbesselCore ρ) (zr zi : Double) (id kode : Int),
       zairy core zr zi id kode none none none
         = core.zairy zr zi id kode none none none) ∧
    (∀ (ρ : Type) (core : ZbesselCore ρ) (zr zi : Double) (id kode : Int),
       zbiry core zr zi id kode none none
         = core.zbiry zr zi id kode none none) ∧
    (∀ (σ : Type) (core : ZbesselCore (StResult σ)) (zr zi fnu : Double)
        (kode m n : Int) (cyr cyi nz : Ptr) (g : σ),
       (core.zbesh zr zi fnu kode m n cyr cyi nz g).2 = g →
       (zbesh core zr zi fnu kode m n cyr cyi nz g).2 = g) := by
  refine ⟨?_, ?_, ?_, ?_, ?_, ?_, ?_, ?_⟩ <;> intros <;> first | rfl | assumption

/-- Witness for C10: the inert stateful core through exported `zbesh`
with all pointers null leaves the memory state `0` unchanged. -/
theorem pointers_forwarded_opaque_witness :
    (zbesh (pureCore Int) 0 0 0 1 1 1 none none none 0).2 = 0 :=
  pointers_forwarded_opaque.2.2.2.2.2.2.2 Int (pureCore Int)
    0 0 0 1 1 1 none none none 0 rfl

/-- Witness for the amended C2 at the concrete parameter `zr` of the
`zairy` signature: it is none of the run parameters. -/
theorem zairy_signature_shape_witness :
    (⟨"zr", CType.double⟩ : Param).name ≠ "n" ∧
    (⟨"zr", CType.double⟩ : Param).name ≠ "cyr" ∧
    (⟨"zr", CType.double⟩ : Param).name ≠ "cyi" :=
  zairy_signature_shape.2.2.2.1 ⟨"zr", CType.double⟩ (by decide)

/-- Witness for C8 at the concrete parameter `bir` of the `zbiry`
signature: it is neither an `nz` nor a run parameter nor an int pointer. -/
theorem zbiry_signature_shape_witness :
    (⟨"bir", CType.ptrDouble⟩ : Param).name ≠ "nz" ∧
    (⟨"bir", CType.ptrDouble⟩ : Param).name ≠ "n" ∧
    (⟨"bir", CType.ptrDouble⟩ : Param).type ≠ CType.ptrInt :=
  zbiry_signature_shape.2.2 ⟨"bir", CType.ptrDouble⟩ (by decide)
